import Mathlib

/-
Verification of the event-bus runtime and mirror protocol of this repository.

The definitions below are shallow embeddings of the TypeScript sources:
  * BusDriver           (src/packages/runtime/src/internal/BusDriver.ts)
  * RuntimeContainer    (src/packages/runtime/src/internal/RuntimeContainer.ts)
  * RuntimeImpl         (src/unnamed/part_022)
  * MirrorContainer, MirrorImage (src/packages/mirror/src/runtime/MirrorContainer.ts)
  * MirrorAgent         (src/packages/types/src/runtime/internal/container/Container.ts)

The file is organised as definitions first and theorems second.
-/

namespace Agentx

/-! ## SystemEvent and the DriveableEvent filter

From BusDriver.ts. A SystemEvent carries a `type` tag and a `source`
("environment" | "container" | "agent" | "mirror").  We also keep the
arrival time of the event on the bus, used by the timeout model:
the JS runtime delivers each bus event at some wall-clock instant. -/

structure SystemEvent where
  type : String
  source : String
  /-- Arrival time of the event, in ms since the start of the exchange. -/
  arrival : Nat
  deriving DecidableEq, Repr

/-- From BusDriver.ts, `isDriveableEvent`: the fixed allow-list of event types. -/
def driveableTypes : List String :=
  ["message_start", "message_delta", "message_stop",
   "text_content_block_start", "text_delta", "text_content_block_stop",
   "tool_use_content_block_start", "input_json_delta",
   "tool_use_content_block_stop", "tool_call", "tool_result", "interrupted"]

/-- From BusDriver.ts lines 155-189: an event drives the exchange only when its
`source` is "environment" and its type is in the allow-list. -/
def isDriveableEvent (e : SystemEvent) : Bool :=
  e.source == "environment" && driveableTypes.contains e.type

/-- From BusDriver.ts lines 98 and 116: `message_stop` and `interrupted`
terminate the exchange. -/
def isTerminalEvent (e : SystemEvent) : Bool :=
  e.type == "message_stop" || e.type == "interrupted"

/-- Default timeout in milliseconds, from BusDriver.ts (`DEFAULT_TIMEOUT`). -/
def DEFAULT_TIMEOUT : Nat := 30000

/-! ## BusDriver.receive as a timed state machine

`BusDriver.receive` arms one `setTimeout(timeout)` when the exchange starts,
subscribes a handler to the bus, and consumes a closeable queue.  The handler
(BusDriver.ts lines 82-101): ignores non-driveable events; calls
`clearTimeout` (a no-op once the timer has fired, and never re-armed);
pushes the event to the queue; closes the queue on a terminal event.
The consumer yields queued events and stops at the first terminal one;
if the timer fired it raises a timeout error after the queue closes.

We run the handler over the script of bus events in arrival order.  Before
each event is handled the armed timer fires if its deadline has passed
(the JS event loop runs the timer callback first). A push onto a closed
queue is discarded (AsyncQueue is a closeable queue; events enqueued after
close are discarded, per the spec of the internal handoff queue). -/

structure DriverState where
  /-- `some d`: the inactivity timer is armed and fires at instant `d`. -/
  deadline : Option Nat
  /-- Set by the timer callback (`timedOut = true` in the source). -/
  timedOut : Bool
  /-- Whether `queue.close()` has run. -/
  closed : Bool
  /-- Events pushed while the queue was open, i.e. yielded to the agent. -/
  yielded : List SystemEvent
  deriving DecidableEq, Repr

def initialDriverState (timeout : Nat) : DriverState :=
  { deadline := some timeout, timedOut := false, closed := false, yielded := [] }

/-- The `setTimeout` callback of BusDriver.ts lines 75-79: when the armed
deadline has passed at instant `t`, set `timedOut` and close the queue. -/
def fireTimerIfDue (s : DriverState) (t : Nat) : DriverState :=
  match s.deadline with
  | some d =>
      if d ≤ t then
        { s with deadline := none, timedOut := true, closed := true }
      else s
  | none => s

/-- The bus handler of BusDriver.ts lines 82-101 (with `aborted = false`
throughout one `receive` call, since only `interrupt()` sets it):
skip non-driveable events; `clearTimeout`; push; close on terminal. -/
def handleBusEvent (s : DriverState) (e : SystemEvent) : DriverState :=
  if isDriveableEvent e then
    let s1 : DriverState := { s with deadline := none }
    if s1.closed then s1
    else
      let s2 : DriverState := { s1 with yielded := s1.yielded ++ [e] }
      if isTerminalEvent e then { s2 with closed := true } else s2
  else s

def driverStep (s : DriverState) (e : SystemEvent) : DriverState :=
  handleBusEvent (fireTimerIfDue s e.arrival) e

def processScript (timeout : Nat) (script : List SystemEvent) : DriverState :=
  script.foldl driverStep (initialDriverState timeout)

/-- How one exchange of `BusDriver.receive` ends, given the whole script of
bus events that will ever arrive. -/
inductive ExchangeOutcome where
  /-- The queue closed on a terminal event; `receive` returned normally. -/
  | completed : ExchangeOutcome
  /-- The inactivity timer fired; `receive` throws the timeout error. -/
  | timedOut : ExchangeOutcome
  /-- The queue never closes and the timer is cleared: the consumer loop
  waits forever for a further event. -/
  | waitsForever : ExchangeOutcome
  deriving DecidableEq, Repr

/-- How the exchange ends once the script is exhausted: a closed queue ended
the consumer loop (timeout error when the timer fired, a normal return
otherwise); a still-armed timer eventually fires (timeout); an unarmed timer
with an open queue leaves the consumer waiting forever. -/
def exchangeOutcome (s : DriverState) : ExchangeOutcome :=
  if s.closed then
    if s.timedOut then .timedOut else .completed
  else
    match s.deadline with
    | some _ => .timedOut
    | none => .waitsForever

/-- The observable result of `BusDriver.receive`: the outcome and the stream
of events yielded to the agent. -/
def runDriver (timeout : Nat) (script : List SystemEvent) :
    ExchangeOutcome × List SystemEvent :=
  let s := processScript timeout script
  (exchangeOutcome s, s.yielded)

/-! Concrete events used by the witnesses. -/

def evTextDelta : SystemEvent :=
  { type := "text_delta", source := "environment", arrival := 10 }

def evStop : SystemEvent :=
  { type := "message_stop", source := "environment", arrival := 20 }

def evAgentDelta : SystemEvent :=
  { type := "text_delta", source := "agent", arrival := 15 }

def evPostStop : SystemEvent :=
  { type := "text_delta", source := "environment", arrival := 25 }

/-- An environment event arriving 99990 ms after `evTextDelta`. -/
def evLateStop : SystemEvent :=
  { type := "message_stop", source := "environment", arrival := 100000 }

/-! ## RuntimeContainer, RuntimeImpl and the image snapshot/resume path

From RuntimeContainer.ts and RuntimeImpl (src/unnamed/part_022). Fresh ids
come from `generateId()` (timestamp + randomness); we pass them in as
parameters. The session is an ordered message list owned by the agent. -/

structure Message where
  role : String
  content : String
  deriving DecidableEq, Repr

structure RuntimeAgent where
  agentId : String
  containerId : String
  lifecycle : String
  /-- The agent's session message sequence. -/
  messages : List Message
  deriving DecidableEq, Repr

structure RuntimeContainer where
  containerId : String
  /-- The `agents` Map in registration (insertion) order. -/
  agents : List RuntimeAgent
  deriving DecidableEq, Repr

/-- The message pre-load loop of RuntimeContainer.runAgentWithMessages lines
190-192: each image message is appended to the fresh session in order. -/
def preloadMessages (msgs : List Message) : List Message :=
  msgs.foldl (fun acc m => acc ++ [m]) []

/-- RuntimeContainer.runAgentWithMessages lines 167-229: generate a fresh
agent id (`newAgentId` here), create a session pre-loaded with the given
messages, create the RuntimeAgent, and register it.  A fresh RuntimeAgent
starts with lifecycle "running" (spec section 4.5: lifecycle `running`;
the RuntimeAgent constructor is not among the embedded sources). -/
def runAgentWithMessages (c : RuntimeContainer) (newAgentId : String)
    (msgs : List Message) : RuntimeContainer × RuntimeAgent :=
  let agent : RuntimeAgent :=
    { agentId := newAgentId, containerId := c.containerId,
      lifecycle := "running", messages := preloadMessages msgs }
  ({ c with agents := c.agents ++ [agent] }, agent)

structure RuntimeState where
  /-- The live `containerRegistry` of RuntimeImpl. -/
  containerRegistry : List RuntimeContainer
  /-- Container ids whose records sit in persistence.  `dispose` keeps the
  record (dispose is not delete); the image-resume path never reads it. -/
  persistedContainers : List String
  deriving DecidableEq, Repr

def findContainer (rt : RuntimeState) (containerId : String) :
    Option RuntimeContainer :=
  rt.containerRegistry.find? (fun c => c.containerId == containerId)

/-- RuntimeImpl.createImageContext (src/unnamed/part_022 lines 199-216):
resolve the container from the live registry only — never from persistence —
so disposed containers cannot be resumed; then run the agent with the image
messages in that container. -/
def createAgentWithMessages (rt : RuntimeState) (containerId : String)
    (newAgentId : String) (msgs : List Message) :
    Except String (RuntimeState × RuntimeAgent) :=
  match findContainer rt containerId with
  | none => .error ("Container not found: " ++ containerId)
  | some c =>
      let p := runAgentWithMessages c newAgentId msgs
      let reg := rt.containerRegistry.map
        (fun x => if x.containerId == containerId then p.1 else x)
      .ok ({ rt with containerRegistry := reg }, p.2)

structure RuntimeAgentImage where
  imageId : String
  containerId : String
  agentId : String
  messages : List Message
  deriving DecidableEq, Repr

/-- Modelled from the spec: `RuntimeAgentImage.snapshot` is not among the
embedded sources (only its callers in RuntimeImpl are).  Per spec section
4.5 it captures the agent's configuration and full message history at the
instant of call — copy-on-snapshot, not by reference — and records the
provenance (containerId, agentId). -/
def snapshot (a : RuntimeAgent) (imageId : String) : RuntimeAgentImage :=
  { imageId := imageId, containerId := a.containerId, agentId := a.agentId,
    messages := a.messages }

/-- Modelled from the spec: `RuntimeAgentImage.resume` is not among the
embedded sources.  Per spec section 4.5 it spawns a brand-new agent in the
image's own container through the image context, pre-loaded with the image's
message snapshot; the container lookup and agent creation are the embedded
`createAgentWithMessages`. -/
def resumeImage (rt : RuntimeState) (img : RuntimeAgentImage)
    (newAgentId : String) : Except String (RuntimeState × RuntimeAgent) :=
  createAgentWithMessages rt img.containerId newAgentId img.messages

/-- Messages delivered to the live agent after the snapshot was taken
(appended to its session). -/
def agentAddMessages (a : RuntimeAgent) (extra : List Message) : RuntimeAgent :=
  { a with messages := a.messages ++ extra }

/-! Concrete runtime states used by the witnesses. -/

def msgHello : Message := { role := "user", content := "hello" }

def msgLater : Message := { role := "assistant", content := "later" }

def agentA : RuntimeAgent :=
  { agentId := "a1", containerId := "c1", lifecycle := "running",
    messages := [msgHello] }

def containerC1 : RuntimeContainer :=
  { containerId := "c1", agents := [agentAddMessages agentA [msgLater]] }

def runtimeLive : RuntimeState :=
  { containerRegistry := [containerC1], persistedContainers := ["c1"] }

def runtimeDisposed : RuntimeState :=
  { containerRegistry := [], persistedContainers := ["c1"] }

def imageOfA : RuntimeAgentImage :=
  { imageId := "img1", containerId := "c1", agentId := "a1",
    messages := [msgHello] }

/-! ## destroyAllAgents

RuntimeContainer.destroyAgent calls `agent.destroy()` — an async call whose
body (RuntimeAgent.destroy) is outside the embedded sources and may reject.
`destroyThrows agentId = true` models a rejecting destroy.
RuntimeContainer.destroyAllAgents lines 274-279 iterates the registered ids
in order and awaits each destroyAgent with no try/catch, so a rejection
propagates to the caller and aborts the loop. -/

/-- RuntimeContainer.destroyAgent lines 243-272: unknown id returns false;
otherwise `agent.destroy()` runs (and may throw), then the agent is removed
from the registry. -/
def destroyAgent (c : RuntimeContainer) (destroyThrows : String → Bool)
    (agentId : String) : Except String (RuntimeContainer × Bool) :=
  match c.agents.find? (fun a => a.agentId == agentId) with
  | none => .ok (c, false)
  | some _ =>
      if destroyThrows agentId then .error ("destroy failed: " ++ agentId)
      else
        .ok ({ c with agents := c.agents.filter (fun a => a.agentId != agentId) },
          true)

/-- The `for` loop body of destroyAllAgents: on the first rejected
destroyAgent the error escapes (second component) with the registry as it
stood; otherwise continue with the updated container. -/
def destroyAllAgentsGo (destroyThrows : String → Bool) :
    List String → RuntimeContainer → RuntimeContainer × Option String
  | [], c => (c, none)
  | agentId :: rest, c =>
      match destroyAgent c destroyThrows agentId with
      | .error e => (c, some e)
      | .ok p => destroyAllAgentsGo destroyThrows rest p.1

/-- RuntimeContainer.destroyAllAgents lines 274-279: snapshot the registered
ids in registration order, then destroy each in turn. -/
def destroyAllAgents (c : RuntimeContainer) (destroyThrows : String → Bool) :
    RuntimeContainer × Option String :=
  destroyAllAgentsGo destroyThrows (c.agents.map (fun a => a.agentId)) c

def agentB2 : RuntimeAgent :=
  { agentId := "b2", containerId := "c1", lifecycle := "running",
    messages := [] }

def agentB1Failing : RuntimeAgent :=
  { agentId := "b1", containerId := "c1", lifecycle := "running",
    messages := [] }

def containerTwoAgents : RuntimeContainer :=
  { containerId := "c1", agents := [agentB1Failing, agentB2] }

def throwsOnB1 : String → Bool := fun s => s == "b1"

/-! ## Mirror protocol (MirrorContainer, MirrorImage, MirrorAgent)

From src/packages/mirror/src/runtime/MirrorContainer.ts and the MirrorAgent
class in src/packages/types/src/runtime/internal/container/Container.ts.
Each operation returns the new local state together with the events sent
upstream and/or the settlement of a pending promise. -/

structure MirrorAgent where
  agentId : String
  containerId : String
  state : String
  lifecycle : String
  name : String
  deriving DecidableEq, Repr

/-- The MirrorAgent constructor: `_state = "idle"`, `_lifecycle = "running"`,
`_name = ""`. -/
def mkMirrorAgent (agentId containerId : String) : MirrorAgent :=
  { agentId := agentId, containerId := containerId, state := "idle",
    lifecycle := "running", name := "" }

/-- An event a mirror entity sends upstream (built by `createMirrorRequest`:
source "mirror", category/intent "request"); only the fields the embedded
call sites put into `data` are kept. -/
structure MirrorRequest where
  type : String
  requestId : Option String
  containerId : Option String
  agentId : Option String
  imageId : Option String
  content : Option String
  deriving DecidableEq, Repr

def agentRunRequest (containerId requestId : String) : MirrorRequest :=
  { type := "agent_run_request", requestId := some requestId,
    containerId := some containerId, agentId := none, imageId := none,
    content := none }

def agentDestroyRequest (containerId agentId : String) : MirrorRequest :=
  { type := "agent_destroy_request", requestId := none,
    containerId := some containerId, agentId := some agentId,
    imageId := none, content := none }

def agentStopRequest (containerId agentId : String) : MirrorRequest :=
  { type := "agent_stop_request", requestId := none,
    containerId := some containerId, agentId := some agentId,
    imageId := none, content := none }

def agentResumeRequest (containerId agentId : String) : MirrorRequest :=
  { type := "agent_resume_request", requestId := none,
    containerId := some containerId, agentId := some agentId,
    imageId := none, content := none }

def userMessageRequest (containerId agentId content : String) : MirrorRequest :=
  { type := "user_message", requestId := none,
    containerId := some containerId, agentId := some agentId,
    imageId := none, content := some content }

def imageResumeRequest (imageId requestId : String) : MirrorRequest :=
  { type := "image_resume_request", requestId := some requestId,
    containerId := none, agentId := none, imageId := some imageId,
    content := none }

/-- How an inbound response event settles (or fails to settle) a pending
promise on the mirror side. -/
inductive Resolution where
  | resolvedAgent (agentId : String)
  | rejected (message : String)
  | noEffect
  deriving DecidableEq, Repr

structure MirrorContainer where
  containerId : String
  /-- The local `agents` Map in insertion order. -/
  agents : List MirrorAgent
  /-- The `_agentCount` field (updated by hand in the source). -/
  agentCount : Nat
  /-- The requestIds of the `pendingRuns` Map. -/
  pendingRuns : List String
  deriving DecidableEq, Repr

/-- MirrorContainer.addAgent lines 182-185: `agents.set` (replace when the
id is present, insert otherwise) then `_agentCount = agents.size`. -/
def MirrorContainer.addAgent (m : MirrorContainer) (a : MirrorAgent) :
    MirrorContainer :=
  let agents' :=
    if m.agents.any (fun x => x.agentId == a.agentId) then
      m.agents.map (fun x => if x.agentId == a.agentId then a else x)
    else m.agents ++ [a]
  { m with agents := agents', agentCount := agents'.length }

/-- MirrorContainer.run lines 89-115: register a pending resolver keyed by
the fresh requestId, then send agent_run_request. The local agent registry
and count are untouched by the send. -/
def MirrorContainer.run (m : MirrorContainer) (requestId : String) :
    MirrorContainer × MirrorRequest :=
  ({ m with pendingRuns := m.pendingRuns ++ [requestId] },
    agentRunRequest m.containerId requestId)

/-- The 30-second `setTimeout` callback registered by MirrorContainer.run
lines 99-104: if the requestId is still pending, remove it and reject with
the timeout error; otherwise nothing happens. -/
def MirrorContainer.runTimeoutFires (m : MirrorContainer) (requestId : String) :
    MirrorContainer × Resolution :=
  if m.pendingRuns.contains requestId then
    ({ m with pendingRuns := m.pendingRuns.filter (fun r => r != requestId) },
      Resolution.rejected "Agent creation timeout")
  else (m, Resolution.noEffect)

structure AgentRunResponse where
  requestId : String
  agentId : Option String
  containerId : String
  error : Option String
  deriving DecidableEq, Repr

/-- MirrorContainer.handleAgentRunResponse lines 229-268: ignore responses
for another container; ignore responses whose requestId has no pending
entry (only a warning is logged); otherwise delete the pending entry and
reject (error, missing agentId) or create the MirrorAgent, add it to local
state and resolve. -/
def MirrorContainer.handleAgentRunResponse (m : MirrorContainer)
    (r : AgentRunResponse) : MirrorContainer × Resolution :=
  if r.containerId != m.containerId then (m, Resolution.noEffect)
  else if !(m.pendingRuns.contains r.requestId) then (m, Resolution.noEffect)
  else
    let m1 := { m with pendingRuns :=
      m.pendingRuns.filter (fun x => x != r.requestId) }
    match r.error with
    | some e => (m1, Resolution.rejected e)
    | none =>
        match r.agentId with
        | none => (m1, Resolution.rejected "No agentId in response")
        | some aid =>
            (m1.addAgent (mkMirrorAgent aid m.containerId),
              Resolution.resolvedAgent aid)

/-- MirrorContainer.destroy lines 141-160: unknown id returns false; for a
known id the mirror sends agent_destroy_request and then immediately
removes the agent from the local cache and updates `_agentCount` — before
any response or notification has arrived. -/
def MirrorContainer.destroy (m : MirrorContainer) (agentId : String) :
    MirrorContainer × List MirrorRequest × Bool :=
  match m.agents.find? (fun a => a.agentId == agentId) with
  | none => (m, [], false)
  | some _ =>
      let agents' := m.agents.filter (fun a => a.agentId != agentId)
      ({ m with agents := agents', agentCount := agents'.length },
        [agentDestroyRequest m.containerId agentId], true)

structure MirrorImage where
  imageId : String
  containerId : String
  name : String
  /-- Whether `pendingResume` is non-null. The source stores only the
  resolver pair, not the requestId of the request it belongs to. -/
  pendingResume : Bool
  deriving DecidableEq, Repr

/-- MirrorImage.resume lines 905-930: store the single pending resolver and
send image_resume_request carrying a fresh requestId. -/
def MirrorImage.resume (img : MirrorImage) (requestId : String) :
    MirrorImage × MirrorRequest :=
  ({ img with pendingResume := true },
    imageResumeRequest img.imageId requestId)

/-- The 30-second `setTimeout` callback of MirrorImage.resume lines
915-920: if a resume is still pending, clear it and reject with the
timeout error. -/
def MirrorImage.resumeTimeoutFires (img : MirrorImage) :
    MirrorImage × Resolution :=
  if img.pendingResume then
    ({ img with pendingResume := false },
      Resolution.rejected "Image resume timeout")
  else (img, Resolution.noEffect)

structure ImageResumeResponse where
  /-- The requestId the response carries on the wire.  The handler never
  reads it: the destructuring in handleResumeResponse takes only imageId,
  agentId, containerId and error. -/
  requestId : String
  imageId : String
  agentId : Option String
  containerId : Option String
  error : Option String
  deriving DecidableEq, Repr

/-- MirrorImage.handleResumeResponse lines 935-977: ignore responses for
another image; ignore when no resume is pending; otherwise clear the
pending slot and reject (error, missing fields) or resolve with the new
MirrorAgent.  The response's requestId plays no part in the match. -/
def MirrorImage.handleResumeResponse (img : MirrorImage)
    (r : ImageResumeResponse) : MirrorImage × Resolution :=
  if r.imageId != img.imageId then (img, Resolution.noEffect)
  else if !img.pendingResume then (img, Resolution.noEffect)
  else
    let img1 := { img with pendingResume := false }
    match r.error with
    | some e => (img1, Resolution.rejected e)
    | none =>
        match r.agentId, r.containerId with
        | some aid, some _ => (img1, Resolution.resolvedAgent aid)
        | _, _ =>
            (img1, Resolution.rejected
              "Invalid response: missing agentId or containerId")

/-- MirrorAgent.receive lines 248-265: guard on destroyed, then on stopped,
both before any event is sent to the peer; on success exactly one
user_message event is sent and local state is unchanged.  The result is
(state after the call, events sent upstream, error thrown if any). -/
def MirrorAgent.receive (a : MirrorAgent) (message : String) :
    MirrorAgent × List MirrorRequest × Option String :=
  if a.lifecycle == "destroyed" then (a, [], some "Agent is destroyed")
  else if a.lifecycle == "stopped" then
    (a, [], some "Cannot send message to stopped agent")
  else
    (a, [userMessageRequest a.containerId a.agentId message], none)

/-- MirrorAgent.stop lines 280-286: send agent_stop_request and set the
local lifecycle to "stopped" in the same call, without waiting for the
agent_stopped notification. -/
def MirrorAgent.stop (a : MirrorAgent) :
    MirrorAgent × List MirrorRequest × Option String :=
  ({ a with lifecycle := "stopped" },
    [agentStopRequest a.containerId a.agentId], none)

/-- MirrorAgent.resume lines 291-301: guard on destroyed before any network
interaction; otherwise send agent_resume_request and set the local
lifecycle to "running" in the same call. -/
def MirrorAgent.resume (a : MirrorAgent) :
    MirrorAgent × List MirrorRequest × Option String :=
  if a.lifecycle == "destroyed" then
    (a, [], some "Cannot resume destroyed agent")
  else
    ({ a with lifecycle := "running" },
      [agentResumeRequest a.containerId a.agentId], none)

/-! Concrete mirror states used by the witnesses and counterexamples. -/

def imgFresh : MirrorImage :=
  { imageId := "img1", containerId := "c1", name := "n1",
    pendingResume := false }

def resumeRespOtherRid : ImageResumeResponse :=
  { requestId := "r2", imageId := "img1", agentId := some "a9",
    containerId := some "c1", error := none }

def mcNoPending : MirrorContainer :=
  { containerId := "c1", agents := [], agentCount := 0,
    pendingRuns := ["rX"] }

def runRespUnknown : AgentRunResponse :=
  { requestId := "rY", agentId := some "a5", containerId := "c1",
    error := none }

def imgPending : MirrorImage :=
  { imageId := "img1", containerId := "c1", name := "n1",
    pendingResume := true }

def resumeRespForImg : ImageResumeResponse :=
  { requestId := "rZ", imageId := "img1", agentId := some "a6",
    containerId := some "c1", error := none }

def mcPendingRun : MirrorContainer :=
  { containerId := "c1", agents := [], agentCount := 0,
    pendingRuns := ["r1"] }

def stoppedAgent : MirrorAgent :=
  { agentId := "a1", containerId := "c1", state := "idle",
    lifecycle := "stopped", name := "n" }

def destroyedAgent : MirrorAgent :=
  { agentId := "a2", containerId := "c1", state := "idle",
    lifecycle := "destroyed", name := "n" }

def mcOneAgent : MirrorContainer :=
  { containerId := "c1", agents := [mkMirrorAgent "a1" "c1"],
    agentCount := 1, pendingRuns := [] }

/-! # Theorems -/

/-! ## Basic lemmas about the driver state machine -/

theorem isDriveableEvent_iff (e : SystemEvent) :
    isDriveableEvent e = true ↔
      e.source = "environment" ∧ e.type ∈ driveableTypes := by
  simp [isDriveableEvent]

theorem fireTimerIfDue_yielded (s : DriverState) (t : Nat) :
    (fireTimerIfDue s t).yielded = s.yielded := by
  unfold fireTimerIfDue
  cases s.deadline with
  | none => rfl
  | some d => dsimp only; split <;> rfl

theorem handleBusEvent_yielded (s : DriverState) (e : SystemEvent) :
    (handleBusEvent s e).yielded = s.yielded ∨
      ((handleBusEvent s e).yielded = s.yielded ++ [e] ∧
        isDriveableEvent e = true) := by
  unfold handleBusEvent
  by_cases hd : isDriveableEvent e
  · by_cases hc : s.closed
    · left; simp [hd, hc]
    · by_cases ht : isTerminalEvent e
      · right; exact ⟨by simp [hd, hc, ht], hd⟩
      · right; exact ⟨by simp [hd, hc, ht], hd⟩
  · left; simp [hd]

theorem driverStep_yielded (s : DriverState) (e : SystemEvent) :
    (driverStep s e).yielded = s.yielded ∨
      ((driverStep s e).yielded = s.yielded ++ [e] ∧
        isDriveableEvent e = true) := by
  have h := handleBusEvent_yielded (fireTimerIfDue s e.arrival) e
  rw [fireTimerIfDue_yielded] at h
  exact h

theorem foldl_driverStep_driveable (script : List SystemEvent) :
    ∀ s : DriverState,
      (∀ x ∈ s.yielded, isDriveableEvent x = true) →
      ∀ x ∈ (script.foldl driverStep s).yielded, isDriveableEvent x = true := by
  induction script with
  | nil => intro s h; simpa using h
  | cons e rest ih =>
      intro s h
      refine ih (driverStep s e) ?_
      intro x hx
      rcases driverStep_yielded s e with hy | ⟨hy, hde⟩
      · exact h x (hy ▸ hx)
      · rw [hy] at hx
        rcases List.mem_append.1 hx with hx' | hx'
        · exact h x hx'
        · rw [List.mem_singleton.1 hx']; exact hde

/-- C1: every event yielded to the agent by `BusDriver.receive` has source
"environment" and a type in the DriveableEvent allow-list; events with any
other source (such as "agent" or "mirror") are never yielded, even when their
type is in the allow-list. -/
theorem busdriver_filters_to_environment (timeout : Nat)
    (script : List SystemEvent) (e : SystemEvent)
    (he : e ∈ (runDriver timeout script).2) :
    e.source = "environment" ∧ e.type ∈ driveableTypes := by
  have he' : e ∈ (processScript timeout script).yielded := he
  have h := foldl_driverStep_driveable script (initialDriverState timeout)
    (by intro x hx; simp [initialDriverState] at hx) e he'
  exact (isDriveableEvent_iff e).1 h

theorem busdriver_filters_to_environment_witness :
    evTextDelta.source = "environment" ∧ evTextDelta.type ∈ driveableTypes :=
  busdriver_filters_to_environment 30000 [evTextDelta, evAgentDelta, evStop]
    evTextDelta (by decide)

/-! ## Termination of an exchange (C2) -/

theorem fireTimerIfDue_of_deadline_none (s : DriverState) (t : Nat)
    (h : s.deadline = none) : fireTimerIfDue s t = s := by
  unfold fireTimerIfDue
  rw [h]

theorem fireTimerIfDue_early (s : DriverState) (t : Nat) (timeout : Nat)
    (hd : s.deadline = some timeout) (h : t < timeout) :
    fireTimerIfDue s t = s := by
  unfold fireTimerIfDue
  rw [hd]
  dsimp only
  rw [if_neg (by omega)]

theorem handleBusEvent_closed_fix (s : DriverState) (e : SystemEvent)
    (hc : s.closed = true) (hd : s.deadline = none) :
    handleBusEvent s e = s := by
  cases s with
  | mk d tOut cl y =>
      simp only at hc hd
      subst hc
      subst hd
      unfold handleBusEvent
      by_cases hdr : isDriveableEvent e <;> simp [hdr]

theorem driverStep_closed_fix (s : DriverState) (e : SystemEvent)
    (hc : s.closed = true) (hd : s.deadline = none) :
    driverStep s e = s := by
  unfold driverStep
  rw [fireTimerIfDue_of_deadline_none s e.arrival hd,
    handleBusEvent_closed_fix s e hc hd]

theorem foldl_driverStep_closed_fix (post : List SystemEvent) (s : DriverState)
    (hc : s.closed = true) (hd : s.deadline = none) :
    post.foldl driverStep s = s := by
  induction post with
  | nil => rfl
  | cons e rest ih =>
      rw [List.foldl_cons, driverStep_closed_fix s e hc hd]
      exact ih

/-- Processing a prefix of events that all arrive before the deadline and
contain no driveable terminal event keeps the queue open, accumulates the
driveable events, and leaves the timer either still armed or cleared. -/
theorem foldl_driverStep_pre (timeout : Nat) (pre : List SystemEvent) :
    ∀ (d : Option Nat) (acc : List SystemEvent),
      (d = some timeout ∨ d = none) →
      (∀ e ∈ pre, e.arrival < timeout) →
      (∀ e ∈ pre, isDriveableEvent e = true → isTerminalEvent e = false) →
      ∃ d', (d' = some timeout ∨ d' = none) ∧
        pre.foldl driverStep ⟨d, false, false, acc⟩ =
          ⟨d', false, false, acc ++ pre.filter isDriveableEvent⟩ := by
  induction pre with
  | nil =>
      intro d acc hd _ _
      exact ⟨d, hd, by simp⟩
  | cons e rest ih =>
      intro d acc hd harr hterm
      have he_arr : e.arrival < timeout := harr e (List.mem_cons_self e rest)
      have hfire : fireTimerIfDue ⟨d, false, false, acc⟩ e.arrival =
          ⟨d, false, false, acc⟩ := by
        rcases hd with h | h
        · exact fireTimerIfDue_early _ _ timeout (by rw [h]) he_arr
        · exact fireTimerIfDue_of_deadline_none _ _ (by rw [h])
      rw [List.foldl_cons]
      have hds : driverStep (⟨d, false, false, acc⟩ : DriverState) e =
          handleBusEvent (fireTimerIfDue ⟨d, false, false, acc⟩ e.arrival) e := rfl
      rw [hds, hfire]
      by_cases hdr : isDriveableEvent e
      · have hte : isTerminalEvent e = false :=
          hterm e (List.mem_cons_self e rest) hdr
        have hstep : handleBusEvent ⟨d, false, false, acc⟩ e =
            ⟨none, false, false, acc ++ [e]⟩ := by
          unfold handleBusEvent
          simp [hdr, hte]
        rw [hstep]
        rcases ih none (acc ++ [e]) (Or.inr rfl)
            (fun x hx => harr x (List.mem_cons_of_mem e hx))
            (fun x hx => hterm x (List.mem_cons_of_mem e hx)) with ⟨d', hd', heq⟩
        refine ⟨d', hd', ?_⟩
        rw [heq, List.filter_cons, if_pos hdr]
        simp
      · have hstep : handleBusEvent ⟨d, false, false, acc⟩ e =
            ⟨d, false, false, acc⟩ := by
          unfold handleBusEvent
          simp [hdr]
        rw [hstep]
        rcases ih d acc hd
            (fun x hx => harr x (List.mem_cons_of_mem e hx))
            (fun x hx => hterm x (List.mem_cons_of_mem e hx)) with ⟨d', hd', heq⟩
        refine ⟨d', hd', ?_⟩
        rw [heq, List.filter_cons, if_neg (by simp [hdr])]

/-- C2: a scripted exchange whose driveable events arrive before the timeout
and end in a terminal event (`message_stop` or `interrupted`) yields exactly
the driveable events up to and including that terminal event and then
completes; nothing emitted on the bus afterwards (`post`) is ever yielded. -/
theorem busdriver_exchange_terminates (timeout : Nat)
    (pre post : List SystemEvent) (t : SystemEvent)
    (hpre_arr : ∀ e ∈ pre, e.arrival < timeout)
    (ht_arr : t.arrival < timeout)
    (hpre_noterm : ∀ e ∈ pre, isDriveableEvent e = true → isTerminalEvent e = false)
    (ht_dr : isDriveableEvent t = true)
    (ht_term : isTerminalEvent t = true) :
    runDriver timeout (pre ++ t :: post) =
      (ExchangeOutcome.completed, pre.filter isDriveableEvent ++ [t]) := by
  rcases foldl_driverStep_pre timeout pre (some timeout) [] (Or.inl rfl)
      hpre_arr hpre_noterm with ⟨d', hd', heq⟩
  have hstep_t : driverStep ⟨d', false, false, pre.filter isDriveableEvent⟩ t =
      ⟨none, false, true, pre.filter isDriveableEvent ++ [t]⟩ := by
    unfold driverStep
    have hfire : fireTimerIfDue ⟨d', false, false, pre.filter isDriveableEvent⟩
        t.arrival = ⟨d', false, false, pre.filter isDriveableEvent⟩ := by
      rcases hd' with h | h
      · exact fireTimerIfDue_early _ _ timeout (by rw [h]) ht_arr
      · exact fireTimerIfDue_of_deadline_none _ _ (by rw [h])
    rw [hfire]
    unfold handleBusEvent
    simp [ht_dr, ht_term]
  have hscript : processScript timeout (pre ++ t :: post) =
      ⟨none, false, true, pre.filter isDriveableEvent ++ [t]⟩ := by
    unfold processScript
    rw [List.foldl_append]
    have hinit : initialDriverState timeout =
        (⟨some timeout, false, false, []⟩ : DriverState) := rfl
    rw [hinit, heq]
    simp only [List.nil_append]
    rw [List.foldl_cons, hstep_t]
    exact foldl_driverStep_closed_fix post _ rfl rfl
  show (exchangeOutcome (processScript timeout (pre ++ t :: post)),
    (processScript timeout (pre ++ t :: post)).yielded) = _
  rw [hscript]
  rfl

theorem busdriver_exchange_terminates_witness :
    runDriver 30000 ([evTextDelta, evAgentDelta] ++ evStop :: [evPostStop]) =
      (ExchangeOutcome.completed,
        [evTextDelta, evAgentDelta].filter isDriveableEvent ++ [evStop]) :=
  busdriver_exchange_terminates 30000 [evTextDelta, evAgentDelta] [evPostStop]
    evStop (by decide) (by decide) (by decide) (by decide) (by decide)

/-! ## The inactivity timer (C3)

`BusDriver.receive` arms the timer once and the handler runs `clearTimeout`
on the first driveable event; no new timer is ever armed.  So the exchange
times out exactly when no driveable event arrives within `timeout` ms of the
start, and a silent gap after the first driveable event never times out. -/

theorem handleBusEvent_timedOut (s : DriverState) (e : SystemEvent) :
    (handleBusEvent s e).timedOut = s.timedOut := by
  unfold handleBusEvent
  by_cases hdr : isDriveableEvent e
  · by_cases hc : s.closed
    · simp [hdr, hc]
    · by_cases ht : isTerminalEvent e <;> simp [hdr, hc, ht]
  · simp [hdr]

theorem handleBusEvent_deadline_none (s : DriverState) (e : SystemEvent)
    (hd : s.deadline = none) : (handleBusEvent s e).deadline = none := by
  unfold handleBusEvent
  by_cases hdr : isDriveableEvent e
  · by_cases hc : s.closed
    · simp [hdr, hc]
    · by_cases ht : isTerminalEvent e <;> simp [hdr, hc, ht]
  · simp [hdr, hd]

/-- Once the timer has been cleared, no later step can set `timedOut` or
re-arm the timer: `clearTimeout` is never followed by a new `setTimeout`. -/
theorem foldl_driverStep_disarmed (script : List SystemEvent) :
    ∀ s : DriverState, s.timedOut = false → s.deadline = none →
      (script.foldl driverStep s).timedOut = false ∧
        (script.foldl driverStep s).deadline = none := by
  induction script with
  | nil => intro s h1 h2; exact ⟨h1, h2⟩
  | cons e rest ih =>
      intro s h1 h2
      rw [List.foldl_cons]
      have hds : driverStep s e = handleBusEvent s e := by
        unfold driverStep
        rw [fireTimerIfDue_of_deadline_none s e.arrival h2]
      rw [hds]
      exact ih _ (by rw [handleBusEvent_timedOut]; exact h1)
        (handleBusEvent_deadline_none s e h2)

/-- If every driveable event of the script arrives at or after the deadline,
the state stays in one of two shapes: fired (timed out and closed) or still
armed with the original deadline. -/
theorem foldl_driverStep_all_late (timeout : Nat) (script : List SystemEvent) :
    ∀ s : DriverState,
      (∀ e ∈ script, isDriveableEvent e = true → timeout ≤ e.arrival) →
      ((s.timedOut = true ∧ s.closed = true ∧ s.deadline = none) ∨
        (s.timedOut = false ∧ s.closed = false ∧ s.deadline = some timeout)) →
      (((script.foldl driverStep s).timedOut = true ∧
          (script.foldl driverStep s).closed = true ∧
          (script.foldl driverStep s).deadline = none) ∨
        ((script.foldl driverStep s).timedOut = false ∧
          (script.foldl driverStep s).closed = false ∧
          (script.foldl driverStep s).deadline = some timeout)) := by
  induction script with
  | nil => intro s _ hQ; exact hQ
  | cons e rest ih =>
      intro s hlate hQ
      rw [List.foldl_cons]
      rcases hQ with ⟨h1, h2, h3⟩ | ⟨h1, h2, h3⟩
      · rw [driverStep_closed_fix s e h2 h3]
        exact ih s (fun x hx => hlate x (List.mem_cons_of_mem e hx))
          (Or.inl ⟨h1, h2, h3⟩)
      · by_cases hfired : timeout ≤ e.arrival
        · have hf : fireTimerIfDue s e.arrival =
              { s with deadline := none, timedOut := true, closed := true } := by
            unfold fireTimerIfDue
            rw [h3]
            dsimp only
            rw [if_pos hfired]
          have hstep : driverStep s e =
              handleBusEvent
                { s with deadline := none, timedOut := true, closed := true } e := by
            unfold driverStep
            rw [hf]
          rw [hstep, handleBusEvent_closed_fix _ e rfl rfl]
          exact ih _ (fun x hx => hlate x (List.mem_cons_of_mem e hx))
            (Or.inl ⟨rfl, rfl, rfl⟩)
        · have hnd : isDriveableEvent e = false := by
            cases hb : isDriveableEvent e
            · rfl
            · exact absurd (hlate e (List.mem_cons_self e rest) hb) hfired
          have hstep : driverStep s e = s := by
            unfold driverStep
            rw [fireTimerIfDue_early s _ timeout h3 (by omega)]
            unfold handleBusEvent
            simp [hnd]
          rw [hstep]
          exact ih s (fun x hx => hlate x (List.mem_cons_of_mem e hx))
            (Or.inr ⟨h1, h2, h3⟩)

/-- If some driveable event of a time-sorted script arrives before the
deadline, the timer is cleared before it can fire and is never re-armed. -/
theorem foldl_driverStep_early (timeout : Nat) (script : List SystemEvent) :
    ∀ s : DriverState,
      script.Pairwise (fun a b => a.arrival ≤ b.arrival) →
      (∃ x ∈ script, isDriveableEvent x = true ∧ x.arrival < timeout) →
      s.timedOut = false → s.closed = false → s.deadline = some timeout →
      (script.foldl driverStep s).timedOut = false ∧
        (script.foldl driverStep s).deadline = none := by
  induction script with
  | nil =>
      intro s _ hex
      exact absurd hex (by simp)
  | cons e rest ih =>
      intro s hsort hex h1 h2 h3
      have he_arr : e.arrival < timeout := by
        obtain ⟨x, hx_mem, _, hx_arr⟩ := hex
        rcases List.mem_cons.1 hx_mem with rfl | hx_mem'
        · exact hx_arr
        · have := (List.pairwise_cons.1 hsort).1 x hx_mem'
          omega
      rw [List.foldl_cons]
      have hds : driverStep s e = handleBusEvent s e := by
        unfold driverStep
        rw [fireTimerIfDue_early s _ timeout h3 he_arr]
      rw [hds]
      by_cases hdr : isDriveableEvent e
      · have hdl : (handleBusEvent s e).deadline = none := by
          unfold handleBusEvent
          simp only [hdr, if_true]
          by_cases hc : s.closed
          · simp [hc]
          · by_cases ht : isTerminalEvent e <;> simp [hc, ht]
        have hto : (handleBusEvent s e).timedOut = false := by
          rw [handleBusEvent_timedOut]
          exact h1
        exact foldl_driverStep_disarmed rest _ hto hdl
      · have hstep : handleBusEvent s e = s := by
          unfold handleBusEvent
          simp [hdr]
        rw [hstep]
        have hex' : ∃ x ∈ rest, isDriveableEvent x = true ∧ x.arrival < timeout := by
          obtain ⟨x, hx_mem, hx_dr, hx_arr⟩ := hex
          rcases List.mem_cons.1 hx_mem with rfl | hx_mem'
          · exact absurd hx_dr (by simp [hdr])
          · exact ⟨x, hx_mem', hx_dr, hx_arr⟩
        exact ih s (List.Pairwise.of_cons hsort) hex' h1 h2 h3

theorem exchangeOutcome_ne_timedOut (s : DriverState)
    (h1 : s.timedOut = false) (h2 : s.deadline = none) :
    exchangeOutcome s ≠ ExchangeOutcome.timedOut := by
  unfold exchangeOutcome
  rw [h1, h2]
  by_cases hc : s.closed <;> simp [hc]

/-- C3 counterexample: an exchange whose second driveable event arrives
99990 ms after the first one (far beyond the 30000 ms timeout) completes
normally — the gap after the first event does not produce a timeout error,
because the timer is cleared on the first event and never re-armed. -/
theorem busdriver_timer_gap_no_timeout :
    30000 < evLateStop.arrival - evTextDelta.arrival ∧
      runDriver 30000 [evTextDelta, evLateStop] =
        (ExchangeOutcome.completed, [evTextDelta, evLateStop]) := by
  exact ⟨by decide, by decide⟩

/-- C3 amended: for a time-sorted script, `BusDriver.receive` ends with the
timeout error precisely when no driveable event arrives within `timeout` ms
of the start of the exchange.  The timer is armed once and cleared on the
first driveable event; gaps between later events never cause a timeout. -/
theorem busdriver_timeout_iff_no_early_event (timeout : Nat)
    (script : List SystemEvent)
    (hsorted : script.Pairwise (fun a b => a.arrival ≤ b.arrival)) :
    (runDriver timeout script).1 = ExchangeOutcome.timedOut ↔
      ∀ e ∈ script, isDriveableEvent e = true → timeout ≤ e.arrival := by
  have hfst : (runDriver timeout script).1 =
      exchangeOutcome (processScript timeout script) := rfl
  constructor
  · intro hout
    by_contra hnot
    push_neg at hnot
    obtain ⟨x, hx_mem, hx_dr, hx_arr⟩ := hnot
    have h := foldl_driverStep_early timeout script (initialDriverState timeout)
      hsorted ⟨x, hx_mem, hx_dr, hx_arr⟩ rfl rfl rfl
    exact exchangeOutcome_ne_timedOut _ h.1 h.2 (hfst ▸ hout)
  · intro hall
    have h := foldl_driverStep_all_late timeout script (initialDriverState timeout)
      hall (Or.inr ⟨rfl, rfl, rfl⟩)
    rw [hfst]
    rcases h with ⟨h1, h2, _⟩ | ⟨h1, h2, h3⟩
    · simp [exchangeOutcome, processScript, h1, h2]
    · simp [exchangeOutcome, processScript, h2, h3]

theorem busdriver_timeout_iff_no_early_event_witness :
    ((runDriver 30000 [evTextDelta]).1 = ExchangeOutcome.timedOut ↔
      ∀ e ∈ [evTextDelta], isDriveableEvent e = true → 30000 ≤ e.arrival) :=
  busdriver_timeout_iff_no_early_event 30000 [evTextDelta] (by simp)

/-! ## Snapshot and resume (C4, C5) -/

theorem preloadMessages_eq (msgs : List Message) : preloadMessages msgs = msgs := by
  have h : ∀ (l acc : List Message),
      l.foldl (fun acc m => acc ++ [m]) acc = acc ++ l := by
    intro l
    induction l with
    | nil => intro acc; simp
    | cons m rest ih => intro acc; simp [ih]
  simpa using h msgs []

/-- C4: snapshotting agent `a` and resuming the image while `a`'s container
is still in the live registry produces a new agent with a fresh id, the same
containerId, lifecycle "running", and a session pre-populated with exactly
the snapshot-time message sequence — even though the live copy of `a` has
since received `extra` further messages. -/
theorem snapshot_resume_roundtrip (rt : RuntimeState) (a : RuntimeAgent)
    (c : RuntimeContainer) (imageId newAgentId : String) (extra : List Message)
    (hc : findContainer rt a.containerId = some c)
    (hlive : agentAddMessages a extra ∈ c.agents)
    (hne : newAgentId ≠ a.agentId) :
    ∃ rt' b, resumeImage rt (snapshot a imageId) newAgentId =
        Except.ok (rt', b) ∧
      b.agentId ≠ a.agentId ∧ b.containerId = a.containerId ∧
      b.lifecycle = "running" ∧ b.messages = a.messages := by
  have hcc : c.containerId = a.containerId := by
    have h := List.find?_some hc
    simpa using h
  have hres : resumeImage rt (snapshot a imageId) newAgentId =
      Except.ok
        (⟨rt.containerRegistry.map
            (fun x => if x.containerId == a.containerId then
              (runAgentWithMessages c newAgentId a.messages).1 else x),
          rt.persistedContainers⟩,
          (runAgentWithMessages c newAgentId a.messages).2) := by
    unfold resumeImage createAgentWithMessages snapshot
    dsimp only
    rw [hc]
  refine ⟨_, _, hres, hne, ?_, ?_, ?_⟩
  · simp [runAgentWithMessages, hcc]
  · simp [runAgentWithMessages]
  · simp [runAgentWithMessages, preloadMessages_eq]

theorem snapshot_resume_roundtrip_witness :
    ∃ rt' b, resumeImage runtimeLive (snapshot agentA "img1") "a2" =
        Except.ok (rt', b) ∧
      b.agentId ≠ agentA.agentId ∧ b.containerId = agentA.containerId ∧
      b.lifecycle = "running" ∧ b.messages = agentA.messages :=
  snapshot_resume_roundtrip runtimeLive agentA containerC1 "img1" "a2"
    [msgLater] (by decide) (by decide) (by decide)

/-- C5: when the containerId recorded in an image is absent from the live
registry — as after the owning container was disposed — resume fails with
the "Container not found" error, even though the container record is still
in persistence. -/
theorem resume_fails_container_not_found (rt : RuntimeState)
    (img : RuntimeAgentImage) (newAgentId : String)
    (hdead : findContainer rt img.containerId = none)
    (hpersisted : img.containerId ∈ rt.persistedContainers) :
    resumeImage rt img newAgentId =
      Except.error ("Container not found: " ++ img.containerId) := by
  unfold resumeImage createAgentWithMessages
  rw [hdead]

theorem resume_fails_container_not_found_witness :
    resumeImage runtimeDisposed imageOfA "a2" =
      Except.error ("Container not found: " ++ imageOfA.containerId) :=
  resume_fails_container_not_found runtimeDisposed imageOfA "a2"
    (by decide) (by decide)

/-! ## destroyAllAgents (C10) -/

/-- C10 counterexample: with two registered agents whose first destroy
rejects, destroyAllAgents surfaces the failure to the caller instead of
ignoring it, and the second agent is left undestroyed in the registry. -/
theorem destroyAllAgents_failure_propagates :
    (destroyAllAgents containerTwoAgents throwsOnB1).2 =
        some ("destroy failed: " ++ "b1") ∧
      agentB2 ∈ (destroyAllAgents containerTwoAgents throwsOnB1).1.agents := by
  exact ⟨by decide, by decide⟩

theorem filter_ne_of_forall_ne (agents : List RuntimeAgent) (agentId : String)
    (h : ∀ x ∈ agents, x.agentId ≠ agentId) :
    agents.filter (fun a => a.agentId != agentId) = agents := by
  rw [List.filter_eq_self]
  intro x hx
  simpa using h x hx

/-- C10 amended: destroyAllAgents destroys the agents in registration order
only up to the first failing destroy; that failure propagates to the caller
(there is no per-agent try/catch), and the failing agent together with every
agent registered after it stays in the registry. -/
theorem destroyAllAgents_aborts_at_first_failure (containerId : String)
    (destroyThrows : String → Bool) (preA postA : List RuntimeAgent)
    (aF : RuntimeAgent)
    (hnodup : ((preA ++ aF :: postA).map (fun a => a.agentId)).Nodup)
    (hpre : ∀ a ∈ preA, destroyThrows a.agentId = false)
    (hF : destroyThrows aF.agentId = true) :
    destroyAllAgents ⟨containerId, preA ++ aF :: postA⟩ destroyThrows =
      (⟨containerId, aF :: postA⟩, some ("destroy failed: " ++ aF.agentId)) := by
  induction preA with
  | nil =>
      unfold destroyAllAgents
      simp only [List.nil_append, List.map_cons]
      unfold destroyAllAgentsGo destroyAgent
      simp [hF]
  | cons a0 pre' ih =>
      have hmap : ((a0 :: pre') ++ aF :: postA).map (fun a => a.agentId) =
          a0.agentId :: (pre' ++ aF :: postA).map (fun a => a.agentId) := by
        simp
      have hn := hnodup
      rw [hmap, List.nodup_cons] at hn
      have hrest_ne : ∀ x ∈ pre' ++ aF :: postA, x.agentId ≠ a0.agentId := by
        intro x hx hEq
        exact hn.1 (hEq ▸ List.mem_map_of_mem (fun a => a.agentId) hx)
      have hthrow : destroyThrows a0.agentId = false :=
        hpre a0 (List.mem_cons_self a0 pre')
      have hstep : destroyAgent ⟨containerId, (a0 :: pre') ++ aF :: postA⟩
          destroyThrows a0.agentId =
          .ok (⟨containerId, pre' ++ aF :: postA⟩, true) := by
        unfold destroyAgent
        have hfind : List.find? (fun a => a.agentId == a0.agentId)
            ((a0 :: pre') ++ aF :: postA) = some a0 := by
          simp
        rw [hfind]
        have hfilter : ((a0 :: pre') ++ aF :: postA).filter
            (fun a => a.agentId != a0.agentId) = pre' ++ aF :: postA := by
          rw [List.cons_append, List.filter_cons]
          simp only [bne_self_eq_false, Bool.false_eq_true, if_false]
          exact filter_ne_of_forall_ne _ _ hrest_ne
        simp only [hthrow, Bool.false_eq_true, if_false, hfilter]
      have ih' := ih hn.2 (fun a ha => hpre a (List.mem_cons_of_mem a0 ha))
      unfold destroyAllAgents at ih' ⊢
      rw [hmap]
      simp only [destroyAllAgentsGo, hstep]
      exact ih'

theorem destroyAllAgents_aborts_at_first_failure_witness :
    destroyAllAgents ⟨"c1", [agentB2] ++ agentB1Failing :: []⟩ throwsOnB1 =
      (⟨"c1", agentB1Failing :: []⟩,
        some ("destroy failed: " ++ agentB1Failing.agentId)) :=
  destroyAllAgents_aborts_at_first_failure "c1" throwsOnB1 [agentB2] []
    agentB1Failing (by decide) (by decide) (by decide)

/-! ## Request/response correlation (C6) -/

/-- C6 counterexample: the resume request is sent with requestId "r1", yet a
resume response carrying requestId "r2" — matching only on imageId — still
resolves the pending resume.  For image resume the requestId is not part of
the correlation, contrary to the claim. -/
theorem mirror_resume_ignores_requestId :
    ((MirrorImage.resume imgFresh "r1").2).requestId = some "r1" ∧
      resumeRespOtherRid.requestId = "r2" ∧
      (MirrorImage.handleResumeResponse (MirrorImage.resume imgFresh "r1").1
          resumeRespOtherRid).2 = Resolution.resolvedAgent "a9" := by
  exact ⟨by decide, by decide, by decide⟩

/-- C6 amended: an agent_run_response settles a pending run only when its
requestId is pending (and the containerId matches) — an unknown requestId
leaves the mirror unchanged and the original request pending; an
image_resume_response, however, is matched by imageId alone: whenever a
resume is pending and the imageId matches, the response settles it whatever
requestId it carries. -/
theorem mirror_response_matching (m : MirrorContainer) (r : AgentRunResponse)
    (img : MirrorImage) (rr : ImageResumeResponse)
    (hnp : m.pendingRuns.contains r.requestId = false)
    (hp : img.pendingResume = true) (him : rr.imageId = img.imageId) :
    MirrorContainer.handleAgentRunResponse m r = (m, Resolution.noEffect) ∧
      (MirrorImage.handleResumeResponse img rr).2 ≠ Resolution.noEffect := by
  constructor
  · unfold MirrorContainer.handleAgentRunResponse
    have hnp' : ¬ r.requestId ∈ m.pendingRuns := by simpa using hnp
    by_cases hcid : r.containerId = m.containerId
    · simp [hcid, hnp']
    · simp [hcid]
  · unfold MirrorImage.handleResumeResponse
    cases herr : rr.error <;> cases hag : rr.agentId <;>
      cases hcid2 : rr.containerId <;> simp [him, hp, herr, hag, hcid2]

theorem mirror_response_matching_witness :
    MirrorContainer.handleAgentRunResponse mcNoPending runRespUnknown =
        (mcNoPending, Resolution.noEffect) ∧
      (MirrorImage.handleResumeResponse imgPending resumeRespForImg).2 ≠
        Resolution.noEffect :=
  mirror_response_matching mcNoPending runRespUnknown imgPending
    resumeRespForImg (by decide) (by decide) (by decide)

/-! ## Pending-request timeouts and late responses (C7) -/

/-- C7: a still-pending entry times out after its independent 30-second
timer: the entry is removed and the promise rejected with the timeout
error; and a response whose requestId is no longer (or never was) pending —
after a timeout, or made up — is dropped silently: it settles nothing and
leaves the mirror state exactly unchanged.  Both directions are stated for
the pending-run map of MirrorContainer and the single pending-resume slot
of MirrorImage. -/
theorem mirror_pending_timeout_and_late_drop (m mLate : MirrorContainer)
    (rid : String) (r : AgentRunResponse) (img imgLate : MirrorImage)
    (rr : ImageResumeResponse)
    (hpend : m.pendingRuns.contains rid = true)
    (hnp : mLate.pendingRuns.contains r.requestId = false)
    (hpr : img.pendingResume = true)
    (hnpr : imgLate.pendingResume = false) :
    MirrorContainer.runTimeoutFires m rid =
        ({ m with pendingRuns := m.pendingRuns.filter (fun x => x != rid) },
          Resolution.rejected "Agent creation timeout") ∧
      MirrorContainer.handleAgentRunResponse mLate r =
        (mLate, Resolution.noEffect) ∧
      MirrorImage.resumeTimeoutFires img =
        ({ img with pendingResume := false },
          Resolution.rejected "Image resume timeout") ∧
      MirrorImage.handleResumeResponse imgLate rr =
        (imgLate, Resolution.noEffect) := by
  refine ⟨?_, ?_, ?_, ?_⟩
  · unfold MirrorContainer.runTimeoutFires
    have hpend' : rid ∈ m.pendingRuns := by simpa using hpend
    simp [hpend']
  · unfold MirrorContainer.handleAgentRunResponse
    have hnp' : ¬ r.requestId ∈ mLate.pendingRuns := by simpa using hnp
    by_cases hcid : r.containerId = mLate.containerId
    · simp [hcid, hnp']
    · simp [hcid]
  · unfold MirrorImage.resumeTimeoutFires
    simp [hpr]
  · unfold MirrorImage.handleResumeResponse
    by_cases him : rr.imageId = imgLate.imageId
    · simp [him, hnpr]
    · simp [him]

theorem mirror_pending_timeout_and_late_drop_witness :
    MirrorContainer.runTimeoutFires mcPendingRun "r1" =
        ({ mcPendingRun with pendingRuns :=
            mcPendingRun.pendingRuns.filter (fun x => x != "r1") },
          Resolution.rejected "Agent creation timeout") ∧
      MirrorContainer.handleAgentRunResponse mcNoPending runRespUnknown =
        (mcNoPending, Resolution.noEffect) ∧
      MirrorImage.resumeTimeoutFires imgPending =
        ({ imgPending with pendingResume := false },
          Resolution.rejected "Image resume timeout") ∧
      MirrorImage.handleResumeResponse imgFresh resumeRespForImg =
        (imgFresh, Resolution.noEffect) :=
  mirror_pending_timeout_and_late_drop mcPendingRun mcNoPending "r1"
    runRespUnknown imgPending imgFresh resumeRespForImg
    (by decide) (by decide) (by decide) (by decide)

/-! ## Local lifecycle guards (C8) -/

/-- C8: `receive` on a stopped mirror agent throws exactly
"Cannot send message to stopped agent", and `resume` on a destroyed one
throws exactly "Cannot resume destroyed agent"; in both cases the agent is
returned unchanged and the list of events sent to the peer is empty — the
guard runs locally before any bus or network interaction, so the remote
session's message sequence cannot have been touched. -/
theorem mirror_agent_guards (a b : MirrorAgent) (message : String)
    (ha : a.lifecycle = "stopped") (hb : b.lifecycle = "destroyed") :
    MirrorAgent.receive a message =
        (a, [], some "Cannot send message to stopped agent") ∧
      MirrorAgent.resume b = (b, [], some "Cannot resume destroyed agent") := by
  constructor
  · unfold MirrorAgent.receive
    simp [ha]
  · unfold MirrorAgent.resume
    simp [hb]

theorem mirror_agent_guards_witness :
    MirrorAgent.receive stoppedAgent "hi" =
        (stoppedAgent, [], some "Cannot send message to stopped agent") ∧
      MirrorAgent.resume destroyedAgent =
        (destroyedAgent, [], some "Cannot resume destroyed agent") :=
  mirror_agent_guards stoppedAgent destroyedAgent "hi" (by decide) (by decide)

/-! ## When mirror local state is written (C9) -/

/-- C9 counterexample: `MirrorContainer.destroy` sends the
agent_destroy_request and, in the same call — before any response or
notification has arrived — removes the agent from the local registry and
drops `agentCount` from 1 to 0.  The send itself mutates mirror state. -/
theorem mirror_destroy_mutates_on_send :
    (MirrorContainer.destroy mcOneAgent "a1").2.1 =
        [agentDestroyRequest "c1" "a1"] ∧
      (MirrorContainer.destroy mcOneAgent "a1").1.agents = [] ∧
      (MirrorContainer.destroy mcOneAgent "a1").1.agentCount = 0 ∧
      mcOneAgent.agentCount = 1 := by
  exact ⟨by decide, by decide, by decide, by decide⟩

/-- C9 amended: sending agent_run_request leaves the mirror's agent
registry and count unchanged (it only registers a pending entry), but the
destructive operations mutate local state optimistically at send time:
`destroy` removes the agent and recomputes the count, `stop` sets the local
lifecycle to "stopped" and `resume` to "running", all without waiting for
the matching response or notification. -/
theorem mirror_send_state_effects (m : MirrorContainer) (rid aid : String)
    (a : MirrorAgent) (x : MirrorAgent)
    (hfound : m.agents.find? (fun b => b.agentId == aid) = some x)
    (hna : a.lifecycle ≠ "destroyed") :
    ((m.run rid).1.agents = m.agents ∧
        (m.run rid).1.agentCount = m.agentCount) ∧
      (MirrorAgent.stop a).1.lifecycle = "stopped" ∧
      (MirrorAgent.resume a).1.lifecycle = "running" ∧
      (MirrorContainer.destroy m aid).1.agents =
        m.agents.filter (fun b => b.agentId != aid) := by
  refine ⟨⟨?_, ?_⟩, ?_, ?_, ?_⟩
  · simp [MirrorContainer.run]
  · simp [MirrorContainer.run]
  · simp [MirrorAgent.stop]
  · unfold MirrorAgent.resume
    simp [hna]
  · unfold MirrorContainer.destroy
    rw [hfound]

theorem mirror_send_state_effects_witness :
    ((mcOneAgent.run "r7").1.agents = mcOneAgent.agents ∧
        (mcOneAgent.run "r7").1.agentCount = mcOneAgent.agentCount) ∧
      (MirrorAgent.stop stoppedAgent).1.lifecycle = "stopped" ∧
      (MirrorAgent.resume stoppedAgent).1.lifecycle = "running" ∧
      (MirrorContainer.destroy mcOneAgent "a1").1.agents =
        mcOneAgent.agents.filter (fun b => b.agentId != "a1") :=
  mirror_send_state_effects mcOneAgent "r7" "a1" stoppedAgent
    (mkMirrorAgent "a1" "c1") (by decide) (by decide)

end Agentx
